import Mathlib

/- Shallow embedding of src/main.py (uniqlo_tracker): the URL resolver, the
product-info fetcher, the diff-and-notify engine, the fetch retry logic and
the ntfy listener protocol, together with theorems checking the
specification's claims against the embedded code. Prices are modelled as
rationals, dictionaries as association lists, and network I/O as explicit
oracles passed in as arguments. -/

/-- A product attribute record as built by `get_info_from_api` (a Python dict
in the source), together with the `nickname` and `url` fields that the
callers add before storing it in `product_history`. -/
structure ProductInfo where
  price : ℚ
  statusCode : String
  statusLocalized : String
  quantity : Nat
  is_promo : Bool
  color_name : String
  size_name : String
  image_url : String
  name : String
  nickname : String
  url : String
deriving DecidableEq

/-- The distinguishing payload of one outbound ntfy notification. -/
inductive NotifKind where
  | priceChange (oldPrice newPrice priceDiff : ℚ)
  | lowStock (quantity : Nat)
  | stockOut
  | quantityDown (oldQty newQty : Nat)
  | quantityUp (oldQty newQty : Nat)
  | productAdded
deriving DecidableEq

/-- One call to `send_ntfy_notification`: the structured payload plus the
`priority` and `tags` header values it is given (priority defaults to 3 and
tags to absent in the source). -/
structure Notification where
  kind : NotifKind
  priority : Nat
  tags : Option String
deriving DecidableEq

/-- The diff engine: the per-product body of the poll loop in `main`
(src/main.py lines 325-385). Given the stored record `old_info` and the
freshly fetched record `new_info` it returns, in source order, the
notifications sent this cycle: the price check, then the stock-status
check, then the quantity check (which the source guards only by
`new_info["statusCode"] == "LOW_STOCK"`). -/
def diffNotifications (old_info new_info : ProductInfo) : List Notification :=
  let priceNotifs :=
    if new_info.price ≠ old_info.price then
      [⟨NotifKind.priceChange old_info.price new_info.price
          (new_info.price - old_info.price), 4, some "tada"⟩]
    else []
  let stockNotifs :=
    if new_info.statusCode ≠ old_info.statusCode then
      if new_info.statusCode = "LOW_STOCK" then
        [⟨NotifKind.lowStock new_info.quantity, 4,
          some (if old_info.statusCode = "IN_STOCK" then "warning" else "up,tada")⟩]
      else if new_info.statusCode = "STOCK_OUT" then
        [⟨NotifKind.stockOut, 4, some "skull"⟩]
      else []
    else []
  let qtyNotifs :=
    if new_info.statusCode = "LOW_STOCK" then
      if new_info.quantity < old_info.quantity then
        if new_info.quantity ≤ 3 then
          [⟨NotifKind.quantityDown old_info.quantity new_info.quantity, 5,
            some "rotating_light"⟩]
        else
          [⟨NotifKind.quantityDown old_info.quantity new_info.quantity, 3,
            some "small_red_triangle_down\t"⟩]
      else if old_info.quantity < new_info.quantity then
        [⟨NotifKind.quantityUp old_info.quantity new_info.quantity, 3, some "up"⟩]
      else []
    else []
  priceNotifs ++ stockNotifs ++ qtyNotifs

/-- Whether a notification comes from the quantity-change rule. -/
def isQuantityNotif (n : Notification) : Bool :=
  match n.kind with
  | NotifKind.quantityDown _ _ => true
  | NotifKind.quantityUp _ _ => true
  | _ => false

/-- The notification built by `notify_product_added` (src/main.py lines
233-265): sequential reassignment of `priority` and `tags`, first for
LOW_STOCK (escalating further when quantity is at most 3), then for
STOCK_OUT. -/
def notify_product_added (product : ProductInfo) : Notification :=
  let priority : Nat := 3
  let tags : Option String := none
  let (priority, tags) :=
    if product.statusCode = "LOW_STOCK" then
      if product.quantity ≤ 3 then (5, some "rotating_light")
      else (4, some "warning")
    else (priority, tags)
  let (priority, tags) :=
    if product.statusCode = "STOCK_OUT" then (4, some "skull")
    else (priority, tags)
  ⟨NotifKind.productAdded, priority, tags⟩

/-- The old record of the spec's end-to-end scenario: price 19.99, IN_STOCK,
quantity 10. -/
def c1OldRecord : ProductInfo :=
  ⟨1999/100, "IN_STOCK", "In stock", 10, false, "", "", "", "", "", ""⟩

/-- The new record of the spec's end-to-end scenario: price 14.99, LOW_STOCK,
quantity 2. -/
def c1NewRecord : ProductInfo :=
  ⟨1499/100, "LOW_STOCK", "Low stock", 2, false, "", "", "", "", "", ""⟩

/-- Evaluation of the diff engine on the scenario records of the end-to-end
claim. -/
lemma diff_c1_records_eval :
    diffNotifications c1OldRecord c1NewRecord =
      [⟨NotifKind.priceChange (1999/100) (1499/100) (-5), 4, some "tada"⟩,
       ⟨NotifKind.lowStock 2, 4, some "warning"⟩,
       ⟨NotifKind.quantityDown 10 2, 5, some "rotating_light"⟩] := by
  have hp : (1499/100 : ℚ) ≠ 1999/100 := by norm_num
  have hd : (1499/100 : ℚ) - 1999/100 = -5 := by norm_num
  simp [diffNotifications, c1OldRecord, c1NewRecord, hp, hd]

/-- C1 (counterexample): on the scenario's records the engine DOES emit a
quantity-change notification, because the quantity rule only tests the new
record's statusCode, contradicting the claim that none is emitted. -/
theorem c1_quantity_notification_fires :
    (diffNotifications c1OldRecord c1NewRecord).filter isQuantityNotif ≠ [] := by
  rw [diff_c1_records_eval]
  decide

/-- C1 (amended): on old record price 19.99 / IN_STOCK / quantity 10 and new
record price 14.99 / LOW_STOCK / quantity 2, the engine emits exactly three
notifications: a price change with difference -5, a low-stock notification
with tag "warning" (previous status was IN_STOCK), and a quantity-down
notification escalated to priority 5 with tag "rotating_light" because the
new quantity 2 is at most 3. -/
theorem c1_scenario_notifications :
    diffNotifications c1OldRecord c1NewRecord =
      [⟨NotifKind.priceChange (1999/100) (1499/100) (-5), 4, some "tada"⟩,
       ⟨NotifKind.lowStock 2, 4, some "warning"⟩,
       ⟨NotifKind.quantityDown 10 2, 5, some "rotating_light"⟩] :=
  diff_c1_records_eval

/-- C6: the diff engine applied to two identical records emits no
notification at all. -/
theorem diff_identical_records_no_notifications (X : ProductInfo) :
    diffNotifications X X = [] := by
  simp [diffNotifications]

/-- Old record for the C4 counterexample: IN_STOCK, quantity 5, price 10. -/
def c4OldRecord : ProductInfo :=
  ⟨10, "IN_STOCK", "", 5, false, "", "", "", "", "", ""⟩

/-- New record for the C4 counterexample: LOW_STOCK, quantity 4, price 10. -/
def c4NewRecord : ProductInfo :=
  ⟨10, "LOW_STOCK", "", 4, false, "", "", "", "", "", ""⟩

/-- C4 (counterexample): the status just changed (IN_STOCK to LOW_STOCK), yet
the quantity rule still fires a quantity-down notification — the rule does
not require the status to be unchanged from the prior check. -/
theorem c4_quantity_rule_ignores_status_change :
    c4OldRecord.statusCode ≠ c4NewRecord.statusCode ∧
      (diffNotifications c4OldRecord c4NewRecord).filter isQuantityNotif =
        [⟨NotifKind.quantityDown 5 4, 3, some "small_red_triangle_down\t"⟩] := by
  decide

/-- C4 (amended): the quantity rule fires only when the NEW record's
statusCode is LOW_STOCK (whether or not the status changed this cycle; with
IN_STOCK it fires nothing); a decrease to a quantity of at most 3 escalates
to priority 5 with tag "rotating_light", and an increase yields a
normal-priority (3) quantity-up notification with tag "up". -/
theorem quantity_rule_cases (o n : ProductInfo) :
    (n.statusCode ≠ "LOW_STOCK" →
      (diffNotifications o n).filter isQuantityNotif = []) ∧
    (n.statusCode = "LOW_STOCK" → n.quantity < o.quantity → n.quantity ≤ 3 →
      (diffNotifications o n).filter isQuantityNotif =
        [⟨NotifKind.quantityDown o.quantity n.quantity, 5, some "rotating_light"⟩]) ∧
    (n.statusCode = "LOW_STOCK" → o.quantity < n.quantity →
      (diffNotifications o n).filter isQuantityNotif =
        [⟨NotifKind.quantityUp o.quantity n.quantity, 3, some "up"⟩]) := by
  unfold diffNotifications
  refine ⟨?_, ?_, ?_⟩
  · intro h
    simp only [List.filter_append]
    split_ifs <;> simp_all [isQuantityNotif]
  · intro h hdec hle
    simp only [List.filter_append]
    split_ifs <;> simp_all [isQuantityNotif]
  · intro h hinc
    simp only [List.filter_append]
    split_ifs <;> simp_all [isQuantityNotif] <;> omega

/-- C4 witness: the three cases of `quantity_rule_cases` instantiated on
concrete records. -/
theorem quantity_rule_cases_witness :
    (diffNotifications c1OldRecord
        ⟨1999/100, "IN_STOCK", "", 4, false, "", "", "", "", "", ""⟩).filter
        isQuantityNotif = [] ∧
    (diffNotifications c4OldRecord
        ⟨10, "LOW_STOCK", "", 3, false, "", "", "", "", "", ""⟩).filter
        isQuantityNotif =
      [⟨NotifKind.quantityDown 5 3, 5, some "rotating_light"⟩] ∧
    (diffNotifications c4OldRecord
        ⟨10, "LOW_STOCK", "", 9, false, "", "", "", "", "", ""⟩).filter
        isQuantityNotif =
      [⟨NotifKind.quantityUp 5 9, 3, some "up"⟩] :=
  ⟨(quantity_rule_cases c1OldRecord _).1 (by decide),
   (quantity_rule_cases c4OldRecord _).2.1 (by decide) (by decide) (by decide),
   (quantity_rule_cases c4OldRecord _).2.2 (by decide) (by decide)⟩

/-- C10: the "added" notification carries priority 3 and no tags when the
statusCode is neither LOW_STOCK nor STOCK_OUT; priority 4 and tag "warning"
for LOW_STOCK with quantity above 3; priority 5 and tag "rotating_light" for
LOW_STOCK with quantity at most 3; and priority 4 and tag "skull" for
STOCK_OUT. -/
theorem notify_added_priority_tags (p : ProductInfo) :
    (p.statusCode ≠ "LOW_STOCK" → p.statusCode ≠ "STOCK_OUT" →
      notify_product_added p = ⟨NotifKind.productAdded, 3, none⟩) ∧
    (p.statusCode = "LOW_STOCK" → 3 < p.quantity →
      notify_product_added p = ⟨NotifKind.productAdded, 4, some "warning"⟩) ∧
    (p.statusCode = "LOW_STOCK" → p.quantity ≤ 3 →
      notify_product_added p = ⟨NotifKind.productAdded, 5, some "rotating_light"⟩) ∧
    (p.statusCode = "STOCK_OUT" →
      notify_product_added p = ⟨NotifKind.productAdded, 4, some "skull"⟩) := by
  unfold notify_product_added
  refine ⟨?_, ?_, ?_, ?_⟩ <;> intro h <;> split_ifs <;> simp_all

/-- C10 witness: the four cases of `notify_added_priority_tags` instantiated
on concrete records. -/
theorem notify_added_priority_tags_witness :
    notify_product_added ⟨10, "IN_STOCK", "", 20, false, "", "", "", "", "", ""⟩ =
      ⟨NotifKind.productAdded, 3, none⟩ ∧
    notify_product_added ⟨10, "LOW_STOCK", "", 7, false, "", "", "", "", "", ""⟩ =
      ⟨NotifKind.productAdded, 4, some "warning"⟩ ∧
    notify_product_added ⟨10, "LOW_STOCK", "", 2, false, "", "", "", "", "", ""⟩ =
      ⟨NotifKind.productAdded, 5, some "rotating_light"⟩ ∧
    notify_product_added ⟨10, "STOCK_OUT", "", 0, false, "", "", "", "", "", ""⟩ =
      ⟨NotifKind.productAdded, 4, some "skull"⟩ :=
  ⟨(notify_added_priority_tags _).1 (by decide) (by decide),
   (notify_added_priority_tags _).2.1 (by decide) (by decide),
   (notify_added_priority_tags _).2.2.1 (by decide) (by decide),
   (notify_added_priority_tags _).2.2.2 (by decide)⟩

/-- Characters matched by the character class of group 3 of the
region/language regex in `get_api_url` (letters, digits, hyphen, slash). -/
def isUriChar (c : Char) : Bool :=
  c.isAlpha || c.isDigit || c == '-' || c == '/'

/-- Characters matched by the character class of the product-id capture group
in `get_api_url` (digits, uppercase letters, hyphen). -/
def isProductIdChar (c : Char) : Bool :=
  c.isDigit || c.isUpper || c == '-'

/-- The suffix following the leftmost occurrence of `pat`, as a regex search
for a literal pattern finds it; `none` when `pat` does not occur. -/
def suffixAfterFirst (pat : List Char) : List Char → Option (List Char)
  | [] => if pat.isEmpty then some [] else none
  | c :: cs =>
    if pat.isPrefixOf (c :: cs) then some ((c :: cs).drop pat.length)
    else suffixAfterFirst pat cs

/-- The search for the pattern of `product_reg` in `get_api_url`: the
leftmost position where "products/" is followed by at least one product-id
character, returning the greedy capture group. -/
def productIdOf : List Char → Option (List Char)
  | [] => none
  | c :: cs =>
    let pat := "products/".toList
    let rest := (c :: cs).drop pat.length
    if pat.isPrefixOf (c :: cs) && isProductIdChar (rest.headD ' ') then
      some (rest.takeWhile isProductIdChar)
    else productIdOf cs

/-- The region/language match of `get_api_url`: the text captured by the
optional greedy group 3 of the regex searched in the whole URL string, with
the source's `or "/"` default when that group is empty. -/
def caEnUri (url : String) : Option String :=
  match suffixAfterFirst "ca/en".toList url.toList with
  | none => none
  | some rest =>
    let uriChars := rest.takeWhile isUriChar
    some (if uriChars.isEmpty then "/" else String.mk uriChars)

/-- Whether urllib.parse.quote keeps a character unescaped with its default
safe set (letters, digits, "_", ".", "-", "~" and the default safe "/"). -/
def quoteKeeps (c : Char) : Bool :=
  c.isAlpha || c.isDigit || c == '_' || c == '.' || c == '-' || c == '~' || c == '/'

/-- An uppercase hexadecimal digit. -/
def hexDigitChar (n : Nat) : Char :=
  if n < 10 then Char.ofNat (48 + n) else Char.ofNat (55 + n)

/-- urllib.parse.quote with the default safe set, on single-byte characters
(the only ones that can reach it here). -/
def pyQuote (s : String) : String :=
  String.mk (s.toList.flatMap fun c =>
    if quoteKeeps c then [c]
    else ['%', hexDigitChar (c.toNat / 16 % 16), hexDigitChar (c.toNat % 16)])

/-- The base API URL hard-coded in `get_api_url`. -/
def base_api_url : String := "https://www.uniqlo.com/ca/api/commerce/v3/en/"

/-- get_api_url (src/main.py lines 59-77): search the URL for the
region/language pattern; on failure return None; otherwise take the captured
path, and return the product-detail API URL when it contains a product id,
else the CMS API URL with the percent-encoded path. -/
def get_api_url (url : String) : Option String :=
  match caEnUri url with
  | none => none
  | some uri =>
    match productIdOf uri.toList with
    | some idChars => some (base_api_url ++ "products/" ++ String.mk idChars)
    | none => some (base_api_url ++ "cms?path=" ++ pyQuote uri)

/-- Modelled from the spec: the host component of a URL (the segment between
"://" and the next "/"). Stated only to express the claim's "non-matching
host" condition; the source code of `get_api_url` never inspects the host. -/
def urlHost (url : String) : Option String :=
  (suffixAfterFirst "://".toList url.toList).map fun rest =>
    String.mk (rest.takeWhile (fun c => c ≠ '/'))

/-- Every character the URI character class accepts is kept unescaped by
quote's default safe set. -/
lemma quoteKeeps_of_isUriChar (c : Char) (h : isUriChar c = true) :
    quoteKeeps c = true := by
  simp only [isUriChar, Bool.or_eq_true] at h
  simp only [quoteKeeps, Bool.or_eq_true]
  tauto

/-- `pyQuote` is the identity on strings all of whose characters are safe. -/
lemma pyQuote_eq_self (l : List Char) (h : ∀ c ∈ l, quoteKeeps c = true) :
    pyQuote (String.mk l) = String.mk l := by
  unfold pyQuote
  congr 1
  induction l with
  | nil => rfl
  | cons c cs ih =>
    have hc : quoteKeeps c = true := h c (List.mem_cons_self c cs)
    have hcs := ih (fun d hd => h d (List.mem_cons_of_mem c hd))
    simpa [hc] using hcs

/-- The captured path consists only of URI-class characters (or is the
default "/"), so quote leaves it unchanged. -/
lemma pyQuote_caEnUri (url uri : String) (h : caEnUri url = some uri) :
    pyQuote uri = uri := by
  unfold caEnUri at h
  cases hs : suffixAfterFirst "ca/en".toList url.toList with
  | none => rw [hs] at h; exact absurd h (by simp)
  | some rest =>
    rw [hs] at h
    simp only [Option.some.injEq] at h
    by_cases he : (rest.takeWhile isUriChar).isEmpty
    · rw [if_pos he] at h
      subst h
      decide
    · rw [if_neg he] at h
      subst h
      exact pyQuote_eq_self _ fun c hc =>
        quoteKeeps_of_isUriChar c (List.mem_takeWhile_imp hc)

/-- C3 (counterexample): the resolver never inspects the host. A URL on the
host www.gap.com whose path contains the region/language pattern is resolved
to a product API URL instead of returning None. -/
theorem get_api_url_ignores_host :
    urlHost "https://www.gap.com/ca/en/products/123" = some "www.gap.com" ∧
    get_api_url "https://www.gap.com/ca/en/products/123" =
      some "https://www.uniqlo.com/ca/api/commerce/v3/en/products/123" := by
  constructor
  · decide
  · decide

/-- C3 (amended): when the URL contains the region/language pattern and the
captured path contains products/<ID>, the resolver returns the base API URL
plus "products/" plus the id; when it contains the pattern but no product id,
it returns the base API URL plus "cms?path=" plus the percent-encoded path
(which is the identity on the captured character class); and it returns None
exactly when the region/language pattern does not occur anywhere in the URL
— the host is never examined. -/
theorem get_api_url_cases (url uri : String) (id : List Char) :
    (caEnUri url = some uri → productIdOf uri.toList = some id →
      get_api_url url = some (base_api_url ++ "products/" ++ String.mk id)) ∧
    (caEnUri url = some uri → productIdOf uri.toList = none →
      get_api_url url = some (base_api_url ++ "cms?path=" ++ pyQuote uri) ∧
        pyQuote uri = uri) ∧
    (caEnUri url = none → get_api_url url = none) := by
  refine ⟨?_, ?_, ?_⟩
  · intro h hp
    have hp' : productIdOf uri.data = some id := hp
    simp [get_api_url, h, hp']
  · intro h hp
    have hp' : productIdOf uri.data = none := hp
    refine ⟨?_, pyQuote_caEnUri url uri h⟩
    simp [get_api_url, h, hp']
  · intro h
    simp [get_api_url, h]

/-- C3 witness: the three cases of `get_api_url_cases` instantiated on a
product URL, a content URL and a URL without the region/language pattern. -/
theorem get_api_url_cases_witness :
    get_api_url "https://www.uniqlo.com/ca/en/products/E463985-000?colorCode=COL30" =
      some (base_api_url ++ "products/" ++ String.mk "E463985-000".toList) ∧
    (get_api_url "https://www.uniqlo.com/ca/en/men-clothing" =
      some (base_api_url ++ "cms?path=" ++ pyQuote "/men-clothing") ∧
      pyQuote "/men-clothing" = "/men-clothing") ∧
    get_api_url "https://www.uniqlo.com/jp/ja/products/E463985-000" = none :=
  ⟨(get_api_url_cases "https://www.uniqlo.com/ca/en/products/E463985-000?colorCode=COL30"
      "/products/E463985-000" "E463985-000".toList).1 (by decide) (by decide),
   (get_api_url_cases "https://www.uniqlo.com/ca/en/men-clothing"
      "/men-clothing" []).2.1 (by decide) (by decide),
   (get_api_url_cases "https://www.uniqlo.com/jp/ja/products/E463985-000"
      "" []).2.2 (by decide)⟩

/-- One entry of the l2s variant list in the parsed API response. -/
structure Variant where
  colorDisplayCode : String
  colorName : String
  sizeDisplayCode : String
  sizeName : String
  basePrice : ℚ
  promoPrice : Option ℚ
  statusCode : String
  statusLocalized : String
  quantity : Nat
deriving DecidableEq

/-- One entry of images.main in the parsed API response. -/
structure ApiImage where
  colorCode : String
  url : String
deriving DecidableEq

/-- The parsed JSON body of a product API response: result.items[0]. -/
structure ApiProduct where
  name : String
  colorCodes : List String
  sizeCodes : List String
  images : List ApiImage
  l2s : List Variant
deriving DecidableEq

/-- The variant filter of the linear scan in `get_info_from_api`: the color
display code must equal the selector's color unless the selector's color is
unset, and likewise for the size. -/
def matchesSelector (cdc sdc : Option String) (v : Variant) : Bool :=
  (match cdc with
   | some c => v.colorDisplayCode == c
   | none => true) &&
  (match sdc with
   | some s => v.sizeDisplayCode == s
   | none => true)

/-- The record `get_info_from_api` builds for the matched variant: the price
is the promo price when present, else the base price; the color/size names
are emitted only when the respective selector field is set; the image URL is
the first main image whose colorCode equals the selector's color, defaulting
to the empty string. -/
def variantInfo (product : ApiProduct) (cdc sdc : Option String) (v : Variant) :
    ProductInfo :=
  { price := match v.promoPrice with
      | some p => p
      | none => v.basePrice
    statusCode := v.statusCode
    statusLocalized := v.statusLocalized
    quantity := v.quantity
    is_promo := v.promoPrice.isSome
    color_name := if cdc.isSome then v.colorName else ""
    size_name := if sdc.isSome then v.sizeName else ""
    image_url :=
      ((product.images.find? fun im =>
          match cdc with
          | some c => im.colorCode == c
          | none => false).map ApiImage.url).getD ""
    name := product.name
    nickname := ""
    url := "" }

/-- The for-loop of `get_info_from_api` over the variant list: return the
info built from the first variant passing the filter, in list order, or
None when no variant passes. -/
def scanVariants (product : ApiProduct) (cdc sdc : Option String) :
    List Variant → Option ProductInfo
  | [] => none
  | v :: vs =>
    if matchesSelector cdc sdc v then some (variantInfo product cdc sdc v)
    else scanVariants product cdc sdc vs

/-- Strip non-letter characters, as re.sub with the class [^A-Za-z] does. -/
def stripNonLetters (s : String) : String :=
  String.mk (s.toList.filter Char.isAlpha)

/-- get_info_from_api (src/main.py lines 101-178), its pure part once the
HTTP response is parsed: derive the color/size code prefixes from the first
entries of colors/sizes (only when the respective selector is set), then
linearly scan l2s for the first matching variant. -/
def get_info_from_api (product : ApiProduct) (cdc sdc : Option String) :
    Option (ProductInfo × Option String × Option String) :=
  let color_code_prefix :=
    if cdc.isSome then some (stripNonLetters (product.colorCodes.headD "")) else none
  let size_code_prefix :=
    if sdc.isSome then some (stripNonLetters (product.sizeCodes.headD "")) else none
  (scanVariants product cdc sdc product.l2s).map fun info =>
    (info, color_code_prefix, size_code_prefix)

/-- The linear scan is List.find? followed by building the record. -/
lemma scanVariants_eq_find (product : ApiProduct) (cdc sdc : Option String)
    (l : List Variant) :
    scanVariants product cdc sdc l =
      (l.find? (matchesSelector cdc sdc)).map (variantInfo product cdc sdc) := by
  induction l with
  | nil => rfl
  | cons v vs ih =>
    by_cases h : matchesSelector cdc sdc v <;>
      simp [scanVariants, List.find?_cons, h, ih]

/-- C5: the fetcher returns the first variant in list order whose color and
size display codes pass the selector filter (a List.find? in disguise); with
both selector fields unset it returns the first variant of a non-empty list
unconditionally; with no matching variant it returns None; and the returned
price is the promotional price when present, else the base price. -/
theorem fetcher_variant_selection (product : ApiProduct) (cdc sdc : Option String) :
    ((get_info_from_api product cdc sdc).map Prod.fst =
      (product.l2s.find? (matchesSelector cdc sdc)).map (variantInfo product cdc sdc)) ∧
    (∀ v vs, product.l2s = v :: vs →
      (get_info_from_api product none none).map Prod.fst =
        some (variantInfo product none none v)) ∧
    ((∀ v ∈ product.l2s, matchesSelector cdc sdc v = false) →
      get_info_from_api product cdc sdc = none) ∧
    (∀ v : Variant, (variantInfo product cdc sdc v).price =
        v.promoPrice.getD v.basePrice ∧
      (variantInfo product cdc sdc v).is_promo = v.promoPrice.isSome) := by
  refine ⟨?_, ?_, ?_, ?_⟩
  · simp [get_info_from_api, scanVariants_eq_find, Option.map_map]
    rfl
  · intro v vs hl
    simp [get_info_from_api, hl, scanVariants, matchesSelector]
  · intro hnone
    have : product.l2s.find? (matchesSelector cdc sdc) = none := by
      rw [List.find?_eq_none]
      intro v hv
      simp [hnone v hv]
    simp [get_info_from_api, scanVariants_eq_find, this]
  · intro v
    constructor
    · cases hv : v.promoPrice <;> simp [variantInfo, hv]
    · rfl

/-- First variant of the C5 witness product. -/
def c5Variant1 : Variant :=
  ⟨"30", "Grey", "002", "S", 10, none, "IN_STOCK", "In stock", 50⟩

/-- Second variant of the C5 witness product. -/
def c5Variant2 : Variant :=
  ⟨"31", "Blue", "003", "M", 10, some 8, "LOW_STOCK", "Low stock", 2⟩

/-- Concrete API response for the C5 witness. -/
def c5Product : ApiProduct :=
  ⟨"AIRism Tee", ["COL30"], ["SMA002"], [⟨"30", "https://img/30"⟩],
   [c5Variant1, c5Variant2]⟩

/-- C5 witness: `fetcher_variant_selection` instantiated on a concrete
response — both selector fields unset returns the first variant, and a
selector matching no variant returns none. -/
theorem fetcher_variant_selection_witness :
    (get_info_from_api c5Product none none).map Prod.fst =
      some (variantInfo c5Product none none c5Variant1) ∧
    get_info_from_api c5Product (some "99") none = none :=
  ⟨(fetcher_variant_selection c5Product none none).2.1 c5Variant1 [c5Variant2] rfl,
   (fetcher_variant_selection c5Product (some "99") none).2.2.1 (by decide)⟩

/-- Lookup in an association-list model of a Python dict keyed by strings. -/
def dictLookup {α : Type} (k : String) : List (String × α) → Option α
  | [] => none
  | e :: es => if e.1 == k then some e.2 else dictLookup k es

/-- Dict assignment: overwrite the entry in place when the key exists,
append a new entry otherwise (Python dict insertion order). -/
def dictInsert {α : Type} (k : String) (v : α) : List (String × α) → List (String × α)
  | [] => [(k, v)]
  | e :: es => if e.1 == k then (k, v) :: es else e :: dictInsert k v es

/-- Dict deletion of a key. -/
def dictErase {α : Type} (k : String) (m : List (String × α)) : List (String × α) :=
  m.filter fun e => !(e.1 == k)

/-- Lookup after assignment. -/
lemma dictLookup_insert {α : Type} (k k' : String) (v : α) (m : List (String × α)) :
    dictLookup k (dictInsert k' v m) = if k = k' then some v else dictLookup k m := by
  induction m with
  | nil =>
    by_cases h : k = k'
    · subst h; simp [dictLookup, dictInsert]
    · have hb : (k' == k) = false := beq_eq_false_iff_ne.mpr (Ne.symm h)
      simp [dictLookup, dictInsert, hb, h]
  | cons e es ih =>
    by_cases he : e.1 = k'
    · have he2 : (e.1 == k') = true := beq_iff_eq.mpr he
      by_cases h : k = k'
      · subst h
        simp [dictInsert, he2, dictLookup]
      · have hb : (k' == k) = false := beq_eq_false_iff_ne.mpr (Ne.symm h)
        have hek : (e.1 == k) = false := by
          rw [beq_eq_false_iff_ne]
          intro hh
          exact h (by rw [← hh, he])
        simp [dictInsert, he2, dictLookup, hb, hek, h]
    · have he2 : (e.1 == k') = false := beq_eq_false_iff_ne.mpr he
      by_cases hek : e.1 = k
      · have hek2 : (e.1 == k) = true := beq_iff_eq.mpr hek
        have hkk : k ≠ k' := fun hh => he (by rw [hek, hh])
        simp [dictInsert, he2, dictLookup, hek2, hkk]
      · have hek2 : (e.1 == k) = false := beq_eq_false_iff_ne.mpr hek
        simp [dictInsert, he2, dictLookup, hek2, ih]

/-- Lookup after deletion. -/
lemma dictLookup_erase {α : Type} (k k' : String) (m : List (String × α)) :
    dictLookup k (dictErase k' m) = if k = k' then none else dictLookup k m := by
  induction m with
  | nil =>
    by_cases h : k = k' <;> simp [dictLookup, dictErase, h]
  | cons e es ih =>
    by_cases he : e.1 = k'
    · have he2 : (e.1 == k') = true := beq_iff_eq.mpr he
      by_cases h : k = k'
      · simp [dictErase, List.filter_cons, he2, h] at ih ⊢
        simpa [dictErase] using ih
      · have hek : (e.1 == k) = false := by
          rw [beq_eq_false_iff_ne]
          intro hh
          exact h (by rw [← hh, he])
        simp only [dictErase, List.filter_cons, he2, Bool.not_true, if_neg,
          Bool.false_eq_true, not_false_eq_true]
        simp only [dictErase] at ih
        simp [ih, h, dictLookup, hek]
    · have he2 : (e.1 == k') = false := beq_eq_false_iff_ne.mpr he
      by_cases hek : e.1 = k
      · have hek2 : (e.1 == k) = true := beq_iff_eq.mpr hek
        have hkk : k ≠ k' := fun hh => he (by rw [hek, hh])
        simp [dictErase, List.filter_cons, he2, dictLookup, hek2, hkk]
      · have hek2 : (e.1 == k) = false := beq_eq_false_iff_ne.mpr hek
        simp only [dictErase, List.filter_cons, he2, Bool.not_false, if_pos]
        simp only [dictErase] at ih
        simp [dictLookup, hek2, ih]

/-- Two successive assignments to the same key collapse to the second. -/
lemma dictInsert_dictInsert {α : Type} (k : String) (v1 v2 : α)
    (m : List (String × α)) :
    dictInsert k v2 (dictInsert k v1 m) = dictInsert k v2 m := by
  induction m with
  | nil => simp [dictInsert]
  | cons e es ih =>
    by_cases he : e.1 = k
    · have he2 : (e.1 == k) = true := beq_iff_eq.mpr he
      simp [dictInsert, he2]
    · have he2 : (e.1 == k) = false := beq_eq_false_iff_ne.mpr he
      simp [dictInsert, he2, ih]

/-- A value of the snapshot store product_history: the product record plus
the report annotations the poll loop writes onto the stored dict
(quantity_change, price_change); none models an absent key. -/
structure StoredRecord where
  info : ProductInfo
  quantity_change : Option String
  price_change : Option String
deriving DecidableEq

/-- process_new_products (src/main.py lines 291-299): a failed fetch is
ignored; otherwise the record gets its nickname and url set, is inserted
into product_history, and an "added" notification is sent. -/
def process_new_products (fetchInfo : Option ProductInfo) (url nickname : String)
    (store : List (String × StoredRecord)) :
    List (String × StoredRecord) × List Notification :=
  match fetchInfo with
  | none => (store, [])
  | some info =>
    let info' := { info with nickname := nickname, url := url }
    (dictInsert url ⟨info', none, none⟩ store, [notify_product_added info'])

/-- The per-product body of the poll loop in `main` (src/main.py lines
309-398): on a failed fetch, log an error and leave the store untouched
(continue); on success, build the new record from the fetched info (nickname
carried over from the stored record, url set to the canonical url returned
by get_info), emit the diff notifications, assign the record annotated with
the quantity change to the store, and then set the price-change annotation
on the stored record (a second write to the same key, since new_info aliases
the stored dict). Returns the store, the notifications, and whether a fetch
error was logged. -/
def pollStepProduct (old : StoredRecord)
    (fetchResult : Option (ProductInfo × String))
    (store : List (String × StoredRecord)) :
    List (String × StoredRecord) × List Notification × Bool :=
  match fetchResult with
  | none => (store, [], true)
  | some (info, url) =>
    let new_info := { info with nickname := old.info.nickname, url := url }
    let notifs := diffNotifications old.info new_info
    let qtyChange :=
      if old.info.quantity ≠ new_info.quantity then
        some (toString old.info.quantity ++ " -> " ++ toString new_info.quantity)
      else none
    let store1 := dictInsert url ⟨new_info, qtyChange, none⟩ store
    let priceChange :=
      if old.info.price ≠ new_info.price then
        some (toString old.info.price ++ " -> " ++ toString new_info.price)
      else none
    let store2 := dictInsert url ⟨new_info, qtyChange, priceChange⟩ store1
    (store2, notifs, false)

/-- C9: a store entry is created by process_new_products only on a
successful fetch (one wholesale insert of a complete record; a failed fetch
changes nothing), and each successful poll replaces the entry in one
wholesale insert of a single record whose fields come from the fresh fetch
(nickname aside) — the two successive writes of the source collapse to one
insert, entries under other keys are untouched, and a failed poll leaves the
store unchanged. -/
theorem snapshot_store_wholesale (old : StoredRecord) (info : ProductInfo)
    (url nickname : String) (store : List (String × StoredRecord)) :
    ((process_new_products (some info) url nickname store).1 =
      dictInsert url ⟨{ info with nickname := nickname, url := url }, none, none⟩
        store) ∧
    ((process_new_products none url nickname store).1 = store) ∧
    (∃ r : StoredRecord,
      r.info = { info with nickname := old.info.nickname, url := url } ∧
      (pollStepProduct old (some (info, url)) store).1 = dictInsert url r store) ∧
    (∀ k, k ≠ url →
      dictLookup k ((pollStepProduct old (some (info, url)) store).1) =
        dictLookup k store) ∧
    ((pollStepProduct old none store).1 = store) := by
  refine ⟨rfl, rfl, ?_, ?_, rfl⟩
  · refine ⟨⟨{ info with nickname := old.info.nickname, url := url },
      if old.info.quantity ≠ info.quantity then
        some (toString old.info.quantity ++ " -> " ++ toString info.quantity)
      else none,
      if old.info.price ≠ info.price then
        some (toString old.info.price ++ " -> " ++ toString info.price)
      else none⟩, rfl, ?_⟩
    simp only [pollStepProduct]
    exact dictInsert_dictInsert url _ _ store
  · intro k hk
    simp only [pollStepProduct]
    rw [dictLookup_insert, dictLookup_insert]
    simp [hk]

/-- C9 witness: `snapshot_store_wholesale` on a concrete store — the frame
conjunct applied at a key different from the polled product's. -/
theorem snapshot_store_wholesale_witness :
    dictLookup "https://www.uniqlo.com/ca/en/products/E2"
        ((pollStepProduct ⟨c1OldRecord, none, none⟩
          (some (c1NewRecord, "https://www.uniqlo.com/ca/en/products/E1"))
          [("https://www.uniqlo.com/ca/en/products/E2", ⟨c4OldRecord, none, none⟩)]).1) =
      dictLookup "https://www.uniqlo.com/ca/en/products/E2"
        [("https://www.uniqlo.com/ca/en/products/E2", ⟨c4OldRecord, none, none⟩)] :=
  (snapshot_store_wholesale ⟨c1OldRecord, none, none⟩ c1NewRecord
      "https://www.uniqlo.com/ca/en/products/E1" ""
      [("https://www.uniqlo.com/ca/en/products/E2", ⟨c4OldRecord, none, none⟩)]).2.2.2.1
    "https://www.uniqlo.com/ca/en/products/E2" (by decide)

/-- The retry count hard-coded as the default of get_response. -/
def responseMaxRetries : Nat := 3

/-- The fixed delay between get_response retries, in seconds. -/
def responseRetryDelay : Nat := 5

/-- The retry count hard-coded as the default of get_info. -/
def infoMaxRetries : Nat := 5

/-- The retry loop of get_response: `remaining` attempts are left; a failed
attempt either raises (exhausted) or sleeps the fixed delay and tries again.
Returns the response (none models the re-raised RequestException), the index
of the next unused network attempt, and the sleeps performed. -/
def get_response_go (net : Nat → Option ApiProduct) (idx remaining : Nat)
    (sleeps : List Nat) : Option ApiProduct × Nat × List Nat :=
  match remaining with
  | 0 => (none, idx, sleeps)
  | r + 1 =>
    match net idx with
    | some resp => (some resp, idx + 1, sleeps)
    | none =>
      if r = 0 then (none, idx + 1, sleeps)
      else get_response_go net (idx + 1) r (sleeps ++ [responseRetryDelay])

/-- get_response (src/main.py lines 80-98): while retries < max_retries, try
the GET; on success return the response; on RequestException increment the
counter and either re-raise (when the count is exhausted) or sleep the fixed
delay of 5 seconds and retry. The network is the oracle `net`, giving the
outcome of each successive attempt. -/
def get_response (net : Nat → Option ApiProduct) (idx : Nat) :
    Option ApiProduct × Nat × List Nat :=
  get_response_go net idx responseMaxRetries []

/-- get_info_from_api at the network level: fetch the response through
get_response (a raised RequestException is caught, logged, and becomes
None), then run the pure parsing and variant selection. -/
def get_info_from_api_net (net : Nat → Option ApiProduct) (idx : Nat)
    (cdc sdc : Option String) :
    Option (ProductInfo × Option String × Option String) × Nat × List Nat :=
  match get_response net idx with
  | (none, idx2, sleeps) => (none, idx2, sleeps)
  | (some resp, idx2, sleeps) => (get_info_from_api resp cdc sdc, idx2, sleeps)

/-- The retry loop of get_info: up to `tries` calls of get_info_from_api,
stopping at the first non-None result. -/
def get_info_go (net : Nat → Option ApiProduct) (cdc sdc : Option String)
    (idx tries : Nat) (sleeps : List Nat) :
    Option (ProductInfo × Option String × Option String) × Nat × List Nat :=
  match tries with
  | 0 => (none, idx, sleeps)
  | t + 1 =>
    match get_info_from_api_net net idx cdc sdc with
    | (some r, idx2, s2) => (some r, idx2, sleeps ++ s2)
    | (none, idx2, s2) => get_info_go net cdc sdc idx2 t (sleeps ++ s2)

/-- The fetch-retry skeleton of get_info (src/main.py lines 181-193): call
get_info_from_api up to 5 times, breaking on the first success; a result
that is still None after the loop is returned as None (the canonical-URL
rewriting of the successful path is not needed by this claim). -/
def get_info_net (net : Nat → Option ApiProduct) (cdc sdc : Option String)
    (idx : Nat) :
    Option (ProductInfo × Option String × Option String) × Nat × List Nat :=
  get_info_go net cdc sdc idx infoMaxRetries []

/-- C8: when every network attempt fails, get_response makes exactly 3
attempts separated by two fixed 5-second sleeps and then surfaces the error;
get_info retries get_info_from_api 5 times (15 network attempts, 10 fixed
sleeps in all) and returns None; and in the poll loop a None fetch logs an
error and leaves the stored entry and the whole snapshot store unchanged,
with no notification sent. -/
theorem transient_failure_bounded_retry (net : Nat → Option ApiProduct)
    (idx : Nat) (cdc sdc : Option String) (old : StoredRecord)
    (store : List (String × StoredRecord))
    (hfail : ∀ i, net i = none) :
    get_response net idx = (none, idx + 3, [5, 5]) ∧
    get_info_net net cdc sdc idx = (none, idx + 15, [5, 5, 5, 5, 5, 5, 5, 5, 5, 5]) ∧
    pollStepProduct old none store = (store, [], true) := by
  have hresp : ∀ j, get_response net j = (none, j + 3, [5, 5]) := by
    intro j
    simp [get_response, get_response_go, hfail, responseMaxRetries,
      responseRetryDelay]
  refine ⟨hresp idx, ?_, rfl⟩
  simp [get_info_net, get_info_go, get_info_from_api_net, hresp, infoMaxRetries]

/-- C8 witness: `transient_failure_bounded_retry` under an always-failing
network: get_info returns None after 15 attempts and 10 fixed 5-second
sleeps, and the poll step on the failed fetch changes nothing and logs. -/
theorem transient_failure_bounded_retry_witness :
    get_info_net (fun _ => none) none none 0 =
      (none, 15, [5, 5, 5, 5, 5, 5, 5, 5, 5, 5]) ∧
    pollStepProduct ⟨c4OldRecord, none, none⟩ none
        [("u", ⟨c4OldRecord, none, none⟩)] =
      ([("u", ⟨c4OldRecord, none, none⟩)], [], true) :=
  ⟨(transient_failure_bounded_retry (fun _ => none) 0 none none
      ⟨c4OldRecord, none, none⟩ [("u", ⟨c4OldRecord, none, none⟩)]
      (fun _ => rfl)).2.1,
   (transient_failure_bounded_retry (fun _ => none) 0 none none
      ⟨c4OldRecord, none, none⟩ [("u", ⟨c4OldRecord, none, none⟩)]
      (fun _ => rfl)).2.2⟩

/-- Whitespace characters stripped by Python str.strip(). -/
def isPySpace (c : Char) : Bool :=
  c == ' ' || c == '\t' || c == '\n' || c == '\r' || c == '\x0b' || c == '\x0c'

/-- Python str.strip with no argument: drop whitespace at both ends. -/
def pyStrip (s : String) : String :=
  String.mk (((s.toList.dropWhile isPySpace).reverse.dropWhile isPySpace).reverse)

/-- The Python `in` operator on strings: substring containment. -/
def containsSub (s pat : String) : Bool :=
  (suffixAfterFirst pat.toList s.toList).isSome

/-- Worker for removeAllOcc: while `skip` is positive the characters belong
to an occurrence already matched and are dropped without rescanning. -/
def removeAllOccAux (pat : List Char) : Nat → List Char → List Char
  | _, [] => []
  | Nat.succ k, _ :: cs => removeAllOccAux pat k cs
  | 0, c :: cs =>
    if pat ≠ [] ∧ pat.isPrefixOf (c :: cs) then
      removeAllOccAux pat (pat.length - 1) cs
    else c :: removeAllOccAux pat 0 cs

/-- Python str.replace(pat, ""): delete every occurrence of `pat`, scanning
left to right without overlap. -/
def removeAllOcc (pat l : List Char) : List Char :=
  removeAllOccAux pat 0 l

/-- The characters before the next occurrence of `pat`. -/
def beforeNextOcc (pat : List Char) : List Char → List Char
  | [] => []
  | c :: cs =>
    if pat.isPrefixOf (c :: cs) then []
    else c :: beforeNextOcc pat cs

/-- Python s.split(pat, 1): the parts before and after the first occurrence
of `pat`, when there is one. -/
def splitOnceAt (pat s : String) : Option (String × String) :=
  match suffixAfterFirst pat.toList s.toList with
  | none => none
  | some rest => some (String.mk (beforeNextOcc pat.toList s.toList), String.mk rest)

/-- parse_uniqlo_url (src/main.py lines 446-447): prepend the scheme and host
to s.split("www.uniqlo.com")[1] (the segment between the first and the
second occurrence); when the host substring is absent the indexing raises,
modelled as none. -/
def parse_uniqlo_url (url : String) : Option String :=
  (suffixAfterFirst "www.uniqlo.com".toList url.toList).map fun rest =>
    "https://www.uniqlo.com" ++ String.mk (beforeNextOcc "www.uniqlo.com".toList rest)

/-- The shared state the listener mutates: the watch-list product_urls (the
persisted products.json mirrors it entry for entry, rewritten in full on
each mutation) and the snapshot store product_history. -/
structure ListenerState where
  product_urls : List (String × String)
  product_history : List (String × StoredRecord)
deriving DecidableEq

/-- One line of the control stream as processed by listen_to_ntfy
(src/main.py lines 454-507), with get_info abstracted as the deterministic
oracle `fetch` returning the fetched record and the canonical URL. The
IndexError that parse_uniqlo_url can raise reaches the loop's exception
handler before any state mutation, so it leaves the state unchanged. -/
def processLine (fetch : String → Option (ProductInfo × String))
    (st : ListenerState) (line : String) : ListenerState :=
  if containsSub line "www.uniqlo.com" then
    if containsSub line "remove:" then
      match parse_uniqlo_url
          (pyStrip (String.mk (removeAllOcc "remove:".toList line.toList))) with
      | none => st
      | some url0 =>
        let url :=
          match fetch url0 with
          | some (_, u) => u
          | none => url0
        let urls2 :=
          if (dictLookup url st.product_urls).isSome then
            dictErase url st.product_urls
          else st.product_urls
        let hist2 :=
          if (dictLookup url st.product_history).isSome then
            dictErase url st.product_history
          else st.product_history
        ⟨urls2, hist2⟩
    else if containsSub line "name:" then
      match splitOnceAt "name:" line with
      | none => st
      | some (left, right) =>
        match parse_uniqlo_url (pyStrip left) with
        | none => st
        | some url0 =>
          match fetch url0 with
          | none => st
          | some (info, url) =>
            if (dictLookup url st.product_urls).isSome ||
                (dictLookup url st.product_history).isSome then st
            else
              ⟨dictInsert url (pyStrip right) st.product_urls,
               (process_new_products (some info) url (pyStrip right)
                  st.product_history).1⟩
    else st
  else st

/-- How one subscription attempt of the listener ends. -/
inductive SessionEnd where
  | ended
  | requestError
  | otherError
deriving DecidableEq

/-- What the listener's while-loop does after a subscription attempt ends. -/
inductive LoopAction where
  | exitLoop
  | retryAfter (delay : Nat)
deriving DecidableEq

/-- One iteration of the while-loop of listen_to_ntfy (src/main.py lines
451-519): process the lines received during this subscription, then either
break out of the loop (the trailing break, reached when iter_lines
terminates normally) or sleep 5 seconds and re-subscribe (both exception
handlers). -/
def listenSession (fetch : String → Option (ProductInfo × String))
    (st : ListenerState) (lines : List String) (outcome : SessionEnd) :
    ListenerState × LoopAction :=
  (lines.foldl (processLine fetch) st,
   match outcome with
   | SessionEnd.ended => LoopAction.exitLoop
   | SessionEnd.requestError => LoopAction.retryAfter 5
   | SessionEnd.otherError => LoopAction.retryAfter 5)

/-- C2 (counterexample): when the subscription stream terminates normally
(iter_lines ends without raising), the loop body runs to its final break
and the listener exits — it does not re-subscribe, so the loop is not
infinite. -/
theorem listener_exits_on_stream_end :
    (listenSession (fun _ => none) ⟨[], []⟩ [] SessionEnd.ended).2 =
      LoopAction.exitLoop := rfl

/-- C2 (amended): after a subscription attempt, the listener sleeps 5
seconds and re-subscribes when the attempt ended in a RequestException or
any other exception, but exits the loop when the stream terminated
normally. -/
theorem listener_loop_actions (fetch : String → Option (ProductInfo × String))
    (st : ListenerState) (lines : List String) :
    (listenSession fetch st lines SessionEnd.requestError).2 =
      LoopAction.retryAfter 5 ∧
    (listenSession fetch st lines SessionEnd.otherError).2 =
      LoopAction.retryAfter 5 ∧
    (listenSession fetch st lines SessionEnd.ended).2 = LoopAction.exitLoop :=
  ⟨rfl, rfl, rfl⟩

/-- C7: processing an add command line and then a remove command line for
the same product (same canonical URL, not tracked before the add, with the
fetch oracle stable across the two commands) leaves the watch-list — and so
the persisted products.json rewritten from it on every mutation — with
exactly the entries it had before the add. -/
theorem watchlist_add_remove_roundtrip
    (fetch : String → Option (ProductInfo × String)) (st : ListenerState)
    (addLine rmLine left right url0 rurl0 url : String)
    (info rinfo : ProductInfo)
    (ha1 : containsSub addLine "www.uniqlo.com" = true)
    (ha2 : containsSub addLine "remove:" = false)
    (ha3 : containsSub addLine "name:" = true)
    (ha4 : splitOnceAt "name:" addLine = some (left, right))
    (ha5 : parse_uniqlo_url (pyStrip left) = some url0)
    (ha6 : fetch url0 = some (info, url))
    (ha7 : dictLookup url st.product_urls = none)
    (ha8 : dictLookup url st.product_history = none)
    (hr1 : containsSub rmLine "www.uniqlo.com" = true)
    (hr2 : containsSub rmLine "remove:" = true)
    (hr3 : parse_uniqlo_url
      (pyStrip (String.mk (removeAllOcc "remove:".toList rmLine.toList))) =
        some rurl0)
    (hr4 : fetch rurl0 = some (rinfo, url)) :
    ∀ k, dictLookup k
        (processLine fetch (processLine fetch st addLine) rmLine).product_urls =
      dictLookup k st.product_urls := by
  intro k
  have hstep1 : processLine fetch st addLine =
      ⟨dictInsert url (pyStrip right) st.product_urls,
       (process_new_products (some info) url (pyStrip right)
          st.product_history).1⟩ := by
    simp [processLine, ha1, ha2, ha3, ha4, ha5, ha6, ha7, ha8]
  rw [hstep1]
  have hl : dictLookup url (dictInsert url (pyStrip right) st.product_urls) =
      some (pyStrip right) := by
    rw [dictLookup_insert]
    simp
  simp only [processLine, hr1, hr2, hr3, hr4, if_true, hl]
  simp only [Option.isSome_some, if_true]
  rw [dictLookup_erase, dictLookup_insert]
  by_cases hk : k = url
  · simp [hk, ha7.symm]
  · simp [hk]

/-- Record returned by the C7 witness oracle. -/
def c7Info : ProductInfo :=
  ⟨10, "IN_STOCK", "In stock", 9, false, "Grey", "S", "", "Tee", "", ""⟩

/-- The get_info oracle of the C7 witness: one known product URL, which
canonicalizes to itself with the color code appended. -/
def c7Fetch (u : String) : Option (ProductInfo × String) :=
  if u == "https://www.uniqlo.com/ca/en/products/E463985-000" then
    some (c7Info,
      "https://www.uniqlo.com/ca/en/products/E463985-000?colorCode=COL30")
  else none

/-- The add command line of the C7 witness. -/
def c7AddLine : String :=
  "https://www.uniqlo.com/ca/en/products/E463985-000 name: AIRism Tee"

/-- The remove command line of the C7 witness. -/
def c7RemoveLine : String :=
  "remove: https://www.uniqlo.com/ca/en/products/E463985-000"

/-- C7 witness: the round-trip theorem on a concrete empty watch-list, add
line and remove line, read back at the product's canonical URL. -/
theorem watchlist_add_remove_roundtrip_witness :
    dictLookup "https://www.uniqlo.com/ca/en/products/E463985-000?colorCode=COL30"
        (processLine c7Fetch
          (processLine c7Fetch ⟨[], []⟩ c7AddLine) c7RemoveLine).product_urls =
      dictLookup "https://www.uniqlo.com/ca/en/products/E463985-000?colorCode=COL30"
        (ListenerState.mk [] []).product_urls :=
  watchlist_add_remove_roundtrip c7Fetch ⟨[], []⟩ c7AddLine c7RemoveLine
    "https://www.uniqlo.com/ca/en/products/E463985-000 " " AIRism Tee"
    "https://www.uniqlo.com/ca/en/products/E463985-000"
    "https://www.uniqlo.com/ca/en/products/E463985-000"
    "https://www.uniqlo.com/ca/en/products/E463985-000?colorCode=COL30"
    c7Info c7Info
    (by decide) (by decide) (by decide) (by decide) (by decide) rfl
    rfl rfl
    (by decide) (by decide) (by decide) rfl
    "https://www.uniqlo.com/ca/en/products/E463985-000?colorCode=COL30"
